import Mathlib

/-!
Verification development for the myevents-server repository.

The MongoDB/Express application is shallowly embedded: each mongoose
collection becomes a list field of a `Store` record, each route handler
becomes a pure function from a `Store` (plus the request data and, where
the handler or a schema default reads the clock, an explicit `now`
timestamp in milliseconds) to a `Reply` carrying the HTTP status code, an
optional response payload and the post-state of the store.  Mongo object
ids are modelled as `Nat`; `Date` values as `Nat` milliseconds since the
epoch (the server's local time zone is taken as UTC, so `setHours(0,0,0,0)`
becomes rounding down to a multiple of `86400000`).  JavaScript truthiness
tests on request fields are modelled with `Option`/empty-string cases:
an absent field is `none` and an empty string is falsy, exactly the cases
the handlers' `!field` checks reject.
-/

namespace MyEvents

/-- One entry of `PollSchema.questions` (src/models/Poll.js).  The schema
field named `type` is rendered `kind` here. -/
structure Question where
  id : String
  text : String
  kind : String
  options : List String
  deriving DecidableEq, Repr

/-- One entry of `SubmissionSchema.answers` (src/models/Submission.js). -/
structure Answer where
  questionId : String
  answer : String
  deriving DecidableEq, Repr

/-- A Poll document (src/models/Poll.js).  `expireAt` is required and
carries a TTL index with `expireAfterSeconds: 0`. -/
structure Poll where
  id : Nat
  title : String
  description : String
  questions : List Question
  user : Nat
  consentEnabled : Bool
  consentText : Option String
  createdAt : Nat
  expireAt : Nat
  deriving DecidableEq, Repr

/-- A Submission document (src/models/Submission.js).  `expireAt` is
required and carries the same kind of TTL index as the Poll's. -/
structure Submission where
  id : Nat
  poll : Nat
  participantName : String
  participantEmail : String
  participantPhone : String
  answers : List Answer
  consentAgreed : Bool
  submittedAt : Nat
  expireAt : Nat
  deriving DecidableEq, Repr

/-- A table sub-document of a venue (TableSchema in
src/models/BookingVenue.js); the layout position is kept as a pair. -/
structure Table where
  tableNumber : String
  capacity : Nat
  posX : Int
  posY : Int
  shape : String
  deriving DecidableEq, Repr

/-- A time-slot sub-document of a venue (TimeSlotSchema in
src/models/BookingVenue.js). -/
structure VenueTimeSlot where
  name : String
  startTime : String
  endTime : String
  daysAvailable : List String
  deriving DecidableEq, Repr

/-- A BookingVenue document (src/models/BookingVenue.js). -/
structure Venue where
  id : Nat
  name : String
  description : String
  venueType : String
  tables : List Table
  timeSlots : List VenueTimeSlot
  layoutImage : Option String
  isActive : Bool
  user : Nat
  createdAt : Nat
  deriving DecidableEq, Repr

/-- The embedded `timeSlot` of a booking (src/unnamed/part_007): plain
strings, stored by value. -/
structure TimeSlot where
  name : String
  startTime : String
  endTime : String
  deriving DecidableEq, Repr

/-- The `status` enum of BookingSchema (src/unnamed/part_007). -/
inductive BStatus where
  | pending
  | confirmed
  | cancelled
  | completed
  deriving DecidableEq, Repr

/-- A Booking document (src/unnamed/part_007).  The schema declares the
indexes `{venue,date,tableNumber}` and `{status,createdAt}`; neither is
unique, so inserting a duplicate of an existing tuple never fails. -/
structure Booking where
  id : Nat
  venue : Nat
  tableNumber : String
  date : Nat
  timeSlot : TimeSlot
  guestName : String
  guestEmail : String
  guestPhone : String
  numberOfGuests : Nat
  specialRequests : String
  status : BStatus
  adminNotes : String
  confirmedAt : Option Nat
  createdAt : Nat
  deriving DecidableEq, Repr

/-- A User document (src/unnamed/part_006).  `password` holds the stored
credential; hashing is an opaque capability in this model, so
`bcrypt.compare` is rendered as equality with the stored value. -/
structure User where
  id : Nat
  name : String
  email : String
  password : String
  businessName : String
  businessType : String
  role : String
  isSetupComplete : Bool
  createdAt : Nat
  deriving DecidableEq, Repr

/-- The singleton Settings document (src/models/Settings.js). -/
structure Settings where
  businessName : String
  businessType : String
  businessDescription : String
  contactEmail : String
  contactPhone : String
  website : String
  address : String
  logo : String
  favicon : String
  primaryColor : String
  secondaryColor : String
  accentColor : String
  backgroundColor : String
  textColor : String
  fontFamily : String
  fontSize : String
  borderRadius : String
  enablePolls : Bool
  enableBookings : Bool
  enableEvents : Bool
  metaTitle : String
  metaDescription : String
  metaKeywords : String
  facebook : String
  instagram : String
  twitter : String
  linkedin : String
  isInitialized : Bool
  updatedAt : Nat
  deriving DecidableEq, Repr

/-- The document produced by `Settings.create({})`: every field takes its
schema default (src/models/Settings.js), `updatedAt` defaulting to the
current time. -/
def settingsDefaults (now : Nat) : Settings :=
  { businessName := "EventPro"
    businessType := "venue"
    businessDescription := "Complete Event Management & Table Booking Platform"
    contactEmail := ""
    contactPhone := ""
    website := ""
    address := ""
    logo := ""
    favicon := ""
    primaryColor := "#7c3aed"
    secondaryColor := "#3b82f6"
    accentColor := "#ec4899"
    backgroundColor := "#ffffff"
    textColor := "#1f2937"
    fontFamily := "Inter, system-ui, sans-serif"
    fontSize := "medium"
    borderRadius := "medium"
    enablePolls := true
    enableBookings := true
    enableEvents := true
    metaTitle := ""
    metaDescription := ""
    metaKeywords := ""
    facebook := ""
    instagram := ""
    twitter := ""
    linkedin := ""
    isInitialized := false
    updatedAt := now }

/-- The whole database: one list per collection, the Settings singleton as
an `Option`, and a counter supplying the next generated object id. -/
structure Store where
  users : List User
  polls : List Poll
  submissions : List Submission
  venues : List Venue
  bookings : List Booking
  settings : Option Settings
  nextId : Nat
  deriving DecidableEq, Repr

/-- `Poll.findById` — the first (in the unique-`_id` collections, the only)
document with the given id. -/
def Store.findPoll (s : Store) (id : Nat) : Option Poll :=
  s.polls.find? (fun p => p.id == id)

/-- `BookingVenue.findById`. -/
def Store.findVenue (s : Store) (id : Nat) : Option Venue :=
  s.venues.find? (fun v => v.id == id)

/-- `Booking.findById`. -/
def Store.findBooking (s : Store) (id : Nat) : Option Booking :=
  s.bookings.find? (fun b => b.id == id)

/-- `User.findById`. -/
def Store.findUser (s : Store) (id : Nat) : Option User :=
  s.users.find? (fun u => u.id == id)

/-- The outcome of one route handler: HTTP status, optional payload, and
the store after the handler ran. -/
structure Reply (α : Type) where
  status : Nat
  body : Option α
  store : Store
  deriving DecidableEq, Repr

/-- The body of `POST /api/public/submit/:pollId` (src/unnamed/part_002).
`answers` is `none` when absent or not an array; `consentAgreed` is the
client-sent boolean, `none` when the field is omitted. -/
structure SubmitReq where
  participantName : String
  participantEmail : String
  participantPhone : Option String
  answers : Option (List Answer)
  consentAgreed : Option Bool
  deriving DecidableEq, Repr

/-- Handler of `POST /api/public/submit/:pollId` (src/unnamed/part_002
lines 37-82): validate name/email, validate answers, look the poll up
(404 when absent), apply the consent gate, then create the submission
copying the poll's `expireAt`. -/
def submitPoll (s : Store) (pollId : Nat) (r : SubmitReq) (now : Nat) :
    Reply Submission :=
  if r.participantName = "" ∨ r.participantEmail = "" then ⟨400, none, s⟩
  else
    match r.answers with
    | none => ⟨400, none, s⟩
    | some answers =>
      match s.findPoll pollId with
      | none => ⟨404, none, s⟩
      | some poll =>
        if poll.consentEnabled && !(r.consentAgreed.getD false) then
          ⟨400, none, s⟩
        else
          let sub : Submission :=
            { id := s.nextId
              poll := poll.id
              participantName := r.participantName
              participantEmail := r.participantEmail
              participantPhone := r.participantPhone.getD ""
              answers := answers
              consentAgreed :=
                if poll.consentEnabled then r.consentAgreed.getD false
                else false
              submittedAt := now
              expireAt := poll.expireAt }
          ⟨201, some sub,
            { s with
              submissions := s.submissions ++ [sub]
              nextId := s.nextId + 1 }⟩

/-- The body of `POST /api/bookings/public/:venueId/book`
(src/routes/bookings.js).  `date` and `timeSlot` are `none` when the field
is absent; string fields are empty when absent (both are rejected by the
handler's falsiness test). -/
structure BookReq where
  tableNumber : String
  date : Option Nat
  timeSlot : Option TimeSlot
  guestName : String
  guestEmail : String
  guestPhone : String
  numberOfGuests : Option Nat
  specialRequests : Option String
  deriving DecidableEq, Repr

/-- Milliseconds per day; with server-local time modelled as UTC,
`new Date(date).setHours(0,0,0,0)` rounds down to a multiple of this. -/
def msPerDay : Nat := 86400000

/-- `startOfDay` of the booking handlers: the date with hours, minutes,
seconds and milliseconds zeroed. -/
def startOfDay (d : Nat) : Nat := d / msPerDay * msPerDay

/-- `endOfDay` of the booking handlers: the date set to 23:59:59.999. -/
def endOfDay (d : Nat) : Nat := startOfDay d + (msPerDay - 1)

/-- The `Booking.findOne` filter of the public booking handler
(src/routes/bookings.js lines 272-279): same venue, same table number,
date inside the day bucket, same slot start and end, and a non-terminal
status. -/
def blocksSlot (venueId : Nat) (tableNumber : String) (date : Nat)
    (slot : TimeSlot) (b : Booking) : Bool :=
  b.venue == venueId && b.tableNumber == tableNumber &&
    decide (startOfDay date ≤ b.date) && decide (b.date ≤ endOfDay date) &&
    b.timeSlot.startTime == slot.startTime &&
    b.timeSlot.endTime == slot.endTime &&
    (b.status == BStatus.pending || b.status == BStatus.confirmed)

/-- The read phase of the public booking handler: the `Booking.findOne`
call, true when a blocking booking exists. -/
def bookConflictCheck (s : Store) (venueId : Nat) (tableNumber : String)
    (date : Nat) (slot : TimeSlot) : Bool :=
  (s.bookings.find? (blocksSlot venueId tableNumber date slot)).isSome

/-- The document built by the `Booking.create` call of the public booking
handler, with the schema defaults of src/unnamed/part_007 for the fields
the handler does not set. -/
def mkBooking (id : Nat) (venueId : Nat) (r : BookReq) (date : Nat)
    (slot : TimeSlot) (now : Nat) : Booking :=
  { id := id
    venue := venueId
    tableNumber := r.tableNumber
    date := date
    timeSlot := slot
    guestName := r.guestName
    guestEmail := r.guestEmail
    guestPhone := r.guestPhone
    numberOfGuests :=
      match r.numberOfGuests with
      | some n => if n = 0 then 1 else n
      | none => 1
    specialRequests := r.specialRequests.getD ""
    status := BStatus.pending
    adminNotes := ""
    confirmedAt := none
    createdAt := now }

/-- The write phase of the public booking handler: the `Booking.create`
call.  The Booking schema declares no unique index, so this insert
succeeds regardless of what the collection already holds. -/
def bookInsert (s : Store) (venueId : Nat) (r : BookReq) (date : Nat)
    (slot : TimeSlot) (now : Nat) : Store :=
  { s with
    bookings := s.bookings ++ [mkBooking s.nextId venueId r date slot now]
    nextId := s.nextId + 1 }

/-- Handler of `POST /api/bookings/public/:venueId/book`
(src/routes/bookings.js lines 250-308): validate the request fields, look
the venue up (404 when absent or inactive), run the conflict check, and
either reject with 400 or insert the new pending booking. -/
def publicBook (s : Store) (venueId : Nat) (r : BookReq) (now : Nat) :
    Reply Booking :=
  match r.date, r.timeSlot with
  | some date, some slot =>
    if r.tableNumber = "" ∨ r.guestName = "" ∨ r.guestEmail = "" ∨
        r.guestPhone = "" then ⟨400, none, s⟩
    else
      match s.findVenue venueId with
      | none => ⟨404, none, s⟩
      | some v =>
        if v.isActive = false then ⟨404, none, s⟩
        else if bookConflictCheck s v.id r.tableNumber date slot then
          ⟨400, none, s⟩
        else
          ⟨201, some (mkBooking s.nextId v.id r date slot now),
            bookInsert s v.id r date slot now⟩
  | _, _ => ⟨400, none, s⟩

/-- The `if (req.body.adminNotes)` pattern of the admin booking handlers:
the note is stored only when present and truthy (non-empty). -/
def applyNotes (cur : String) (r : Option String) : String :=
  match r with
  | some t => if t = "" then cur else t
  | none => cur

/-- Replace the booking with the given id by its updated version — the
effect of `booking.save()` on the unique-`_id` collection. -/
def Store.saveBooking (s : Store) (b : Booking) : Store :=
  { s with bookings := s.bookings.map (fun x => if x.id == b.id then b else x) }

/-- Handler of `PUT /api/bookings/admin/:id/confirm` (src/routes/bookings.js
lines 82-111): 404 when the booking is absent; `populate('venue')` followed
by `booking.venue.user` throws when the venue is gone (caught as 500);
403 when the venue belongs to another user; otherwise the status is set to
`confirmed` and `confirmedAt` to now, unconditionally on the prior status. -/
def confirmBooking (s : Store) (userId bookingId : Nat)
    (adminNotes : Option String) (now : Nat) : Reply Booking :=
  match s.findBooking bookingId with
  | none => ⟨404, none, s⟩
  | some b =>
    match s.findVenue b.venue with
    | none => ⟨500, none, s⟩
    | some v =>
      if v.user ≠ userId then ⟨403, none, s⟩
      else
        let b2 := { b with
          status := BStatus.confirmed
          confirmedAt := some now
          adminNotes := applyNotes b.adminNotes adminNotes }
        ⟨200, some b2, s.saveBooking b2⟩

/-- Handler of `PUT /api/bookings/admin/:id/cancel` (src/routes/bookings.js
lines 116-144): like confirm, but the status is set to `cancelled` and
`confirmedAt` is left alone. -/
def cancelBooking (s : Store) (userId bookingId : Nat)
    (adminNotes : Option String) : Reply Booking :=
  match s.findBooking bookingId with
  | none => ⟨404, none, s⟩
  | some b =>
    match s.findVenue b.venue with
    | none => ⟨500, none, s⟩
    | some v =>
      if v.user ≠ userId then ⟨403, none, s⟩
      else
        let b2 := { b with
          status := BStatus.cancelled
          adminNotes := applyNotes b.adminNotes adminNotes }
        ⟨200, some b2, s.saveBooking b2⟩

/-- Handler of `DELETE /api/bookings/admin/:id` (src/routes/bookings.js
lines 149-172): same 404/500/403 prefix, then `booking.deleteOne()`. -/
def deleteBooking (s : Store) (userId bookingId : Nat) : Reply Unit :=
  match s.findBooking bookingId with
  | none => ⟨404, none, s⟩
  | some b =>
    match s.findVenue b.venue with
    | none => ⟨500, none, s⟩
    | some v =>
      if v.user ≠ userId then ⟨403, none, s⟩
      else
        ⟨200, some (),
          { s with bookings := s.bookings.eraseP (fun x => x.id == b.id) }⟩

/-- Handler of `GET /api/bookings/venue/:venueId` (src/routes/bookings.js
lines 14-50): 404 when the venue is absent, 403 when it belongs to another
user, otherwise the venue's bookings. -/
def bookingsForVenue (s : Store) (userId venueId : Nat) :
    Reply (List Booking) :=
  match s.findVenue venueId with
  | none => ⟨404, none, s⟩
  | some v =>
    if v.user ≠ userId then ⟨403, none, s⟩
    else ⟨200, some (s.bookings.filter (fun b => b.venue == venueId)), s⟩

/-- Handler of `GET /api/polls/:id` (src/routes/polls.js lines 131-149):
404 when absent, 403 when owned by another user, otherwise the poll. -/
def getPoll (s : Store) (userId pollId : Nat) : Reply Poll :=
  match s.findPoll pollId with
  | none => ⟨404, none, s⟩
  | some p =>
    if p.user ≠ userId then ⟨403, none, s⟩
    else ⟨200, some p, s⟩

/-- The body of `PUT /api/polls/:id`.  For each field, `none` means the
field was absent from the request body (`undefined`); `consentText`'s
inner `Option` is the nullable stored value. -/
structure PollUpdateReq where
  title : Option String
  description : Option String
  questions : Option (List Question)
  expireAt : Option Nat
  consentEnabled : Option Bool
  consentText : Option (Option String)
  deriving DecidableEq, Repr

/-- The `x || old` merge used for string fields: an absent or empty (falsy)
new value keeps the old one. -/
def jsOrStr (newVal : Option String) (old : String) : String :=
  match newVal with
  | some t => if t = "" then old else t
  | none => old

/-- The `x || old` merge on the date field, with 0 as the falsy value of
the millisecond model. -/
def jsOrNat (newVal : Option Nat) (old : Nat) : Nat :=
  match newVal with
  | some n => if n = 0 then old else n
  | none => old

/-- The field-merge block of `PUT /api/polls/:id` (src/routes/polls.js
lines 170-175): `||` merges for title/questions/expireAt,
`!== undefined` merges for the rest. -/
def mergePoll (p : Poll) (r : PollUpdateReq) : Poll :=
  { p with
    title := jsOrStr r.title p.title
    description := r.description.getD p.description
    questions := r.questions.getD p.questions
    expireAt := jsOrNat r.expireAt p.expireAt
    consentEnabled := r.consentEnabled.getD p.consentEnabled
    consentText := r.consentText.getD p.consentText }

/-- Handler of `PUT /api/polls/:id` (src/routes/polls.js lines 154-187):
404 when absent, 403 when owned by another user, otherwise merge the
request fields into the poll and save it. -/
def updatePoll (s : Store) (userId pollId : Nat) (r : PollUpdateReq) :
    Reply Poll :=
  match s.findPoll pollId with
  | none => ⟨404, none, s⟩
  | some p =>
    if p.user ≠ userId then ⟨403, none, s⟩
    else
      let p2 := mergePoll p r
      ⟨200, some p2,
        { s with polls := s.polls.map (fun x => if x.id == p.id then p2 else x) }⟩

/-- Handler of `DELETE /api/polls/:id` (src/routes/polls.js lines 192-212):
404 when absent, 403 when owned by another user, otherwise
`Poll.findByIdAndDelete`. -/
def deletePoll (s : Store) (userId pollId : Nat) : Reply Unit :=
  match s.findPoll pollId with
  | none => ⟨404, none, s⟩
  | some p =>
    if p.user ≠ userId then ⟨403, none, s⟩
    else
      ⟨200, some (),
        { s with polls := s.polls.eraseP (fun x => x.id == pollId) }⟩

/-- Handler of `GET /api/results/:pollId` (src/routes/results.js): 404 when
the poll is absent, 403 when owned by another user, otherwise the poll's
submissions. -/
def getResults (s : Store) (userId pollId : Nat) : Reply (List Submission) :=
  match s.findPoll pollId with
  | none => ⟨404, none, s⟩
  | some p =>
    if p.user ≠ userId then ⟨403, none, s⟩
    else ⟨200, some (s.submissions.filter (fun sub => sub.poll == pollId)), s⟩

/-- Handler of `GET /api/booking-venues/:id` (src/unnamed/part_001 lines
68-89): 404 when absent, 403 when owned by another user. -/
def getVenue (s : Store) (userId venueId : Nat) : Reply Venue :=
  match s.findVenue venueId with
  | none => ⟨404, none, s⟩
  | some v =>
    if v.user ≠ userId then ⟨403, none, s⟩
    else ⟨200, some v, s⟩

/-- The body of `PUT /api/booking-venues/:id`; `layoutImage`'s inner
`Option` is the nullable stored value. -/
structure VenueUpdateReq where
  name : Option String
  description : Option String
  venueType : Option String
  tables : Option (List Table)
  timeSlots : Option (List VenueTimeSlot)
  layoutImage : Option (Option String)
  isActive : Option Bool
  deriving DecidableEq, Repr

/-- The field-merge block of `PUT /api/booking-venues/:id`
(src/unnamed/part_001 lines 110-116). -/
def mergeVenue (v : Venue) (r : VenueUpdateReq) : Venue :=
  { v with
    name := jsOrStr r.name v.name
    description := r.description.getD v.description
    venueType := jsOrStr r.venueType v.venueType
    tables := r.tables.getD v.tables
    timeSlots := r.timeSlots.getD v.timeSlots
    layoutImage := r.layoutImage.getD v.layoutImage
    isActive := r.isActive.getD v.isActive }

/-- Handler of `PUT /api/booking-venues/:id` (src/unnamed/part_001 lines
94-128): 404 when absent, 403 when owned by another user, otherwise merge
and save. -/
def updateVenue (s : Store) (userId venueId : Nat) (r : VenueUpdateReq) :
    Reply Venue :=
  match s.findVenue venueId with
  | none => ⟨404, none, s⟩
  | some v =>
    if v.user ≠ userId then ⟨403, none, s⟩
    else
      let v2 := mergeVenue v r
      ⟨200, some v2,
        { s with venues := s.venues.map (fun x => if x.id == v.id then v2 else x) }⟩

/-- Handler of `DELETE /api/booking-venues/:id` (src/unnamed/part_001 lines
133-159): 404 when absent, 403 when owned by another user, otherwise
delete the venue's bookings and the venue. -/
def deleteVenue (s : Store) (userId venueId : Nat) : Reply Unit :=
  match s.findVenue venueId with
  | none => ⟨404, none, s⟩
  | some v =>
    if v.user ≠ userId then ⟨403, none, s⟩
    else
      ⟨200, some (),
        { s with
          bookings := s.bookings.filter (fun b => !(b.venue == v.id))
          venues := s.venues.eraseP (fun x => x.id == v.id) }⟩

/-- Handler of `GET /api/booking-venues/:id/bookings` (src/unnamed/part_001
lines 164-188): 404 when absent, 403 when owned by another user, otherwise
the venue's bookings. -/
def venueBookings (s : Store) (userId venueId : Nat) : Reply (List Booking) :=
  match s.findVenue venueId with
  | none => ⟨404, none, s⟩
  | some v =>
    if v.user ≠ userId then ⟨403, none, s⟩
    else ⟨200, some (s.bookings.filter (fun b => b.venue == v.id)), s⟩

/-- `SettingsSchema.statics.getSiteSettings` (src/models/Settings.js lines
146-152): `findOne`, and when no document exists, `create({})` — the read
path itself persists a default document. -/
def getSiteSettings (s : Store) (now : Nat) : Settings × Store :=
  match s.settings with
  | some st => (st, s)
  | none => (settingsDefaults now, { s with settings := some (settingsDefaults now) })

/-- Handler of `GET /api/settings` (src/routes/polls.js concatenation,
settings router lines 224-263): calls `Settings.getSiteSettings()` and
returns the result.  The route's `if (!settings)` default-object branch is
unreachable, because `getSiteSettings` never resolves to a null document —
it creates one instead. -/
def getSettingsRoute (s : Store) (now : Nat) : Reply Settings :=
  let (st, s2) := getSiteSettings s now
  ⟨200, some st, s2⟩

/-- Handler of `POST /api/auth/delete-account` (src/routes/auth.js lines
391-451): 404 when the caller's user row is gone, 401 on a wrong password
(`bcrypt.compare` modelled as equality with the stored credential), 400 on
a wrong confirmation phrase, otherwise `deleteMany({})` on all six
collections. -/
def deleteAccount (s : Store) (userId : Nat)
    (confirmPassword confirmText : String) : Reply Unit :=
  match s.findUser userId with
  | none => ⟨404, none, s⟩
  | some u =>
    if confirmPassword ≠ u.password then ⟨401, none, s⟩
    else if confirmText ≠ "DELETE MY ACCOUNT" then ⟨400, none, s⟩
    else
      ⟨200, some (),
        { s with
          users := []
          polls := []
          submissions := []
          venues := []
          bookings := []
          settings := none }⟩

/-- MongoDB's TTL monitor applied to the two TTL-indexed collections
(`PollSchema.index({expireAt:1},{expireAfterSeconds:0})` and the same on
SubmissionSchema): a sweep at time `now` removes every document whose
`expireAt` has passed.  The monitor runs periodically, so between expiry
and the next sweep an expired document is still present. -/
def ttlSweep (s : Store) (now : Nat) : Store :=
  { s with
    polls := s.polls.filter (fun p => decide (now < p.expireAt))
    submissions := s.submissions.filter (fun sub => decide (now < sub.expireAt)) }

/-! ### Concrete fixtures for counterexamples and witnesses -/

/-- A store with every collection empty. -/
def emptyStore : Store :=
  { users := [], polls := [], submissions := [], venues := [], bookings := [],
    settings := none, nextId := 1 }

/-- A poll without consent requirement, expiring at `t = 777`. -/
def c3poll : Poll :=
  { id := 1, title := "Lunch survey", description := "", questions := [],
    user := 1, consentEnabled := false, consentText := none,
    createdAt := 0, expireAt := 777 }

def c3store : Store := { emptyStore with polls := [c3poll], nextId := 5 }

def c3req : SubmitReq :=
  { participantName := "Ann", participantEmail := "ann@ex.net",
    participantPhone := none, answers := some [], consentAgreed := none }

/-- The submission that `submitPoll c3store 1 c3req 10` creates. -/
def c3sub : Submission :=
  { id := 5, poll := 1, participantName := "Ann", participantEmail := "ann@ex.net",
    participantPhone := "", answers := [], consentAgreed := false,
    submittedAt := 10, expireAt := 777 }

/-- A poll already expired (`expireAt = 5`) but not yet removed by the TTL
monitor. -/
def c4poll : Poll := { c3poll with expireAt := 5 }

def c4store : Store := { emptyStore with polls := [c4poll], nextId := 6 }

def c4req : SubmitReq :=
  { participantName := "Bob", participantEmail := "bob@ex.net",
    participantPhone := none, answers := some [], consentAgreed := none }

/-- Poll 1 does not require consent; poll 2 does. -/
def c6poll1 : Poll :=
  { id := 1, title := "a", description := "", questions := [], user := 1,
    consentEnabled := false, consentText := none, createdAt := 0, expireAt := 100 }

def c6poll2 : Poll :=
  { c6poll1 with id := 2, consentEnabled := true, consentText := some "terms" }

def c6store : Store := { emptyStore with polls := [c6poll1, c6poll2], nextId := 7 }

/-- A request that claims consent although poll 1 never asked for it. -/
def c6reqTrue : SubmitReq :=
  { participantName := "N", participantEmail := "n@ex.net",
    participantPhone := none, answers := some [], consentAgreed := some true }

/-- The same request with the consent field omitted. -/
def c6reqNone : SubmitReq := { c6reqTrue with consentAgreed := none }

/-- The submission `submitPoll c6store 1 c6reqTrue 0` creates: consent was
claimed by the client but is stored as `false`. -/
def c6sub : Submission :=
  { id := 7, poll := 1, participantName := "N", participantEmail := "n@ex.net",
    participantPhone := "", answers := [], consentAgreed := false,
    submittedAt := 0, expireAt := 100 }

def raceSlot : TimeSlot :=
  { name := "Dinner", startTime := "18:00", endTime := "20:00" }

def raceVenue : Venue :=
  { id := 1, name := "Cafe", description := "", venueType := "restaurant",
    tables := [{ tableNumber := "T1", capacity := 4, posX := 0, posY := 0,
                 shape := "square" }],
    timeSlots := [{ name := "Dinner", startTime := "18:00", endTime := "20:00",
                    daysAvailable := ["Monday"] }],
    layoutImage := none, isActive := true, user := 1, createdAt := 0 }

/-- An active venue with no bookings yet. -/
def raceStore : Store := { emptyStore with venues := [raceVenue], nextId := 10 }

/-- A public booking request for table T1, date 0, the dinner slot, by the
named guest. -/
def raceReq (g : String) : BookReq :=
  { tableNumber := "T1", date := some 0, timeSlot := some raceSlot,
    guestName := g, guestEmail := "guest@ex.net", guestPhone := "555",
    numberOfGuests := some 2, specialRequests := none }

/-- A store whose only booking for the tuple is cancelled. -/
def c2cancelled : Booking :=
  { id := 4, venue := 1, tableNumber := "T1", date := 0, timeSlot := raceSlot,
    guestName := "Old", guestEmail := "old@ex.net", guestPhone := "1",
    numberOfGuests := 2, specialRequests := "", status := BStatus.cancelled,
    adminNotes := "", confirmedAt := none, createdAt := 0 }

def c2store : Store :=
  { emptyStore with venues := [raceVenue], bookings := [c2cancelled], nextId := 11 }

def c5venue : Venue := { raceVenue with id := 2 }

/-- A booking that already reached the terminal status `cancelled`. -/
def c5booking : Booking :=
  { id := 5, venue := 2, tableNumber := "T1", date := 0, timeSlot := raceSlot,
    guestName := "G", guestEmail := "g@ex.net", guestPhone := "1",
    numberOfGuests := 2, specialRequests := "", status := BStatus.cancelled,
    adminNotes := "", confirmedAt := none, createdAt := 0 }

def c5store : Store :=
  { emptyStore with venues := [c5venue], bookings := [c5booking], nextId := 20 }

def c8poll : Poll :=
  { id := 1, title := "p", description := "", questions := [], user := 1,
    consentEnabled := false, consentText := none, createdAt := 0, expireAt := 1000 }

def c8venue : Venue := { raceVenue with id := 2 }

def c8booking : Booking :=
  { c5booking with id := 3, venue := 2, status := BStatus.pending }

/-- Poll 1, venue 2 and booking 3 (via venue 2) all belong to user 1; ids
99 are absent. -/
def c8store : Store :=
  { emptyStore with
    polls := [c8poll]
    venues := [c8venue]
    bookings := [c8booking]
    nextId := 50 }

def c9poll : Poll :=
  { id := 1, title := "q", description := "", questions := [], user := 1,
    consentEnabled := false, consentText := none, createdAt := 0, expireAt := 100 }

/-- A submission created while `c9poll.expireAt` was 100, so it copied 100. -/
def c9sub : Submission :=
  { id := 2, poll := 1, participantName := "A", participantEmail := "a@ex.net",
    participantPhone := "", answers := [], consentAgreed := false,
    submittedAt := 0, expireAt := 100 }

def c9store : Store :=
  { emptyStore with polls := [c9poll], submissions := [c9sub], nextId := 30 }

/-- An owner update that moves the poll's expiry from 100 to 200. -/
def c9req : PollUpdateReq :=
  { title := none, description := none, questions := none,
    expireAt := some 200, consentEnabled := none, consentText := none }

def c10admin : User :=
  { id := 1, name := "Admin", email := "admin@ex.net", password := "hash-one",
    businessName := "B", businessType := "restaurant", role := "admin",
    isSetupComplete := true, createdAt := 0 }

def c10other : User :=
  { c10admin with id := 2, email := "other@ex.net", password := "hash-two" }

/-- Two users; the poll, venue and booking all belong to the OTHER user
(id 2), and a Settings row exists. -/
def c10store : Store :=
  { emptyStore with
    users := [c10admin, c10other]
    polls := [{ c8poll with user := 2 }]
    venues := [{ c8venue with user := 2 }]
    bookings := [c8booking]
    submissions := [c9sub]
    settings := some (settingsDefaults 0)
    nextId := 9 }

/-- A poll update request with every field absent. -/
def noopPollReq : PollUpdateReq :=
  { title := none, description := none, questions := none, expireAt := none,
    consentEnabled := none, consentText := none }

/-- A venue update request with every field absent. -/
def noopVenueReq : VenueUpdateReq :=
  { name := none, description := none, venueType := none, tables := none,
    timeSlots := none, layoutImage := none, isActive := none }

/-! ### Theorems -/

/-- C3: every submission persisted by a successful public poll submission
carries exactly the parent poll's stored `expireAt` — the handler copies
`poll.expireAt` into the new document, for every store, request and clock
value. -/
theorem submission_expireAt_copied (s : Store) (pollId : Nat) (r : SubmitReq)
    (now : Nat) (sub : Submission)
    (h : (submitPoll s pollId r now).body = some sub) :
    ∃ poll, s.findPoll pollId = some poll ∧ sub.expireAt = poll.expireAt := by
  unfold submitPoll at h
  split at h
  · simp at h
  · split at h
    · simp at h
    · split at h
      · simp at h
      · rename_i poll hpoll
        split at h
        · simp at h
        · simp only [Option.some.injEq] at h
          subst h
          exact ⟨poll, hpoll, rfl⟩

/-- Witness for C3: in the concrete store `c3store`, the submission created
by the handler has `expireAt = 777`, the parent poll's value. -/
theorem submission_expireAt_copied_witness :
    ∃ poll, c3store.findPoll 1 = some poll ∧ c3sub.expireAt = poll.expireAt :=
  submission_expireAt_copied c3store 1 c3req 10 c3sub (by decide)

/-- C4 counterexample: poll 1 of `c4store` expired at time 5 and the clock
is at 10, but the TTL monitor has not yet removed it; the claim says the
submission request must fail with 404 and create nothing, yet the handler
answers 201 and persists a Submission. -/
theorem submit_expired_unswept_accepts :
    c4store.findPoll 1 = some c4poll ∧ c4poll.expireAt < 10 ∧
    (submitPoll c4store 1 c4req 10).status = 201 ∧
    (submitPoll c4store 1 c4req 10).store.submissions.length = 1 := by decide

/-- C4 amended: a valid submission request targeting a poll id with no
document in the store fails with 404 and leaves the store unchanged, and
the TTL sweep removes every poll whose `expireAt` has passed — so an
expired poll is rejected once swept; the handler itself performs no
`expireAt` comparison. -/
theorem submit_absent_poll_rejected (s : Store) (pollId : Nat) (r : SubmitReq)
    (now : Nat) (hname : r.participantName ≠ "")
    (hemail : r.participantEmail ≠ "") (hans : r.answers.isSome = true)
    (habs : s.findPoll pollId = none) :
    (submitPoll s pollId r now).status = 404 ∧
    (submitPoll s pollId r now).store = s ∧
    ∀ p ∈ (ttlSweep s now).polls, now < p.expireAt := by
  obtain ⟨answers, hans⟩ := Option.isSome_iff_exists.mp hans
  refine ⟨?_, ?_, ?_⟩
  · simp [submitPoll, hname, hemail, hans, habs]
  · simp [submitPoll, hname, hemail, hans, habs]
  · intro p hp
    simp only [ttlSweep, List.mem_filter, decide_eq_true_eq] at hp
    exact hp.2

/-- Witness for the amended C4: id 99 is absent from `c4store`, so the
request fails with 404, and the sweep at time 10 leaves no expired poll. -/
theorem submit_absent_poll_rejected_witness :
    (submitPoll c4store 99 c4req 10).status = 404 ∧
    (submitPoll c4store 99 c4req 10).store = c4store ∧
    ∀ p ∈ (ttlSweep c4store 10).polls, 10 < p.expireAt :=
  submit_absent_poll_rejected c4store 99 c4req 10 (by decide) (by decide)
    (by decide) (by decide)

/-- C6: when the target poll has `consentEnabled = false`, every submission
the handler persists has `consentAgreed = false`, whatever the client sent;
when `consentEnabled = true` and the client omitted the field or sent a
value other than true, the request is rejected with 400 and the store is
unchanged. -/
theorem consent_forcing (s : Store) (pollId : Nat) (r : SubmitReq) (now : Nat)
    (poll : Poll) (hp : s.findPoll pollId = some poll) :
    (poll.consentEnabled = false →
      ∀ sub, (submitPoll s pollId r now).body = some sub →
        sub.consentAgreed = false) ∧
    (poll.consentEnabled = true → r.consentAgreed ≠ some true →
      (submitPoll s pollId r now).status = 400 ∧
      (submitPoll s pollId r now).store = s) := by
  constructor
  · intro hcf sub h
    unfold submitPoll at h
    split at h
    · simp at h
    · split at h
      · simp at h
      · split at h
        · simp at h
        · rename_i poll2 hpoll2
          split at h
          · simp at h
          · simp only [Option.some.injEq] at h
            subst h
            rw [hp] at hpoll2
            obtain rfl := Option.some.inj hpoll2
            simp [hcf]
  · intro hct hca
    have hgetD : r.consentAgreed.getD false = false := by
      cases hca2 : r.consentAgreed with
      | none => rfl
      | some b =>
        cases b with
        | false => rfl
        | true => exact absurd hca2 hca
    by_cases hname : r.participantName = "" ∨ r.participantEmail = ""
    · constructor <;> simp [submitPoll, hname]
    · push_neg at hname
      cases hans : r.answers with
      | none => constructor <;> simp [submitPoll, hname.1, hname.2, hans]
      | some answers =>
        constructor <;>
          simp [submitPoll, hname.1, hname.2, hans, hp, hct, hgetD]

/-- Witness for C6: on poll 1 (consent not required) a client-sent
`consentAgreed = true` is stored as `false`; on poll 2 (consent required)
an omitted consent field yields 400 and no change to the store. -/
theorem consent_forcing_witness :
    ((submitPoll c6store 1 c6reqTrue 0).body = some c6sub ∧
      c6sub.consentAgreed = false) ∧
    ((submitPoll c6store 2 c6reqNone 0).status = 400 ∧
      (submitPoll c6store 2 c6reqNone 0).store = c6store) := by
  constructor
  · have h := (consent_forcing c6store 1 c6reqTrue 0 c6poll1 (by decide)).1
      (by decide) c6sub (by decide)
    exact ⟨by decide, h⟩
  · exact (consent_forcing c6store 2 c6reqNone 0 c6poll2 (by decide)).2
      (by decide) (by decide)

/-- The `findOne`-based conflict check fires exactly when some stored
booking blocks the requested slot. -/
theorem bookConflictCheck_iff (s : Store) (venueId : Nat)
    (tableNumber : String) (date : Nat) (slot : TimeSlot) :
    bookConflictCheck s venueId tableNumber date slot = true ↔
      ∃ b ∈ s.bookings, blocksSlot venueId tableNumber date slot b = true := by
  simp [bookConflictCheck, List.find?_isSome]

/-- C2: for a valid public booking request on an existing active venue —
if some stored booking has the same venue, same table number, a date in
the same day bucket, the same slot start and end times, and status
`pending` or `confirmed`, the request is rejected with 400 and the store
is unchanged; if no stored booking blocks the slot, a new booking with
status `pending` is appended; and a booking whose status is `cancelled`
or `completed` never blocks. -/
theorem publicBook_conflict_spec (s : Store) (venueId : Nat) (r : BookReq)
    (now : Nat) (v : Venue) (date : Nat) (slot : TimeSlot)
    (hv : s.findVenue venueId = some v) (hact : v.isActive = true)
    (hd : r.date = some date) (hs : r.timeSlot = some slot)
    (htn : r.tableNumber ≠ "") (hgn : r.guestName ≠ "")
    (hge : r.guestEmail ≠ "") (hgp : r.guestPhone ≠ "") :
    ((∃ b ∈ s.bookings, blocksSlot v.id r.tableNumber date slot b = true) →
      (publicBook s venueId r now).status = 400 ∧
      (publicBook s venueId r now).store = s) ∧
    ((∀ b ∈ s.bookings, blocksSlot v.id r.tableNumber date slot b = false) →
      (publicBook s venueId r now).status = 201 ∧
      (publicBook s venueId r now).store.bookings =
        s.bookings ++ [mkBooking s.nextId v.id r date slot now] ∧
      (mkBooking s.nextId v.id r date slot now).status = BStatus.pending) ∧
    (∀ b : Booking,
      b.status = BStatus.cancelled ∨ b.status = BStatus.completed →
      blocksSlot v.id r.tableNumber date slot b = false) := by
  refine ⟨?_, ?_, ?_⟩
  · intro hex
    have hc : bookConflictCheck s v.id r.tableNumber date slot = true :=
      (bookConflictCheck_iff s v.id r.tableNumber date slot).mpr hex
    constructor <;> simp [publicBook, hd, hs, htn, hgn, hge, hgp, hv, hact, hc]
  · intro hall
    have hc : bookConflictCheck s v.id r.tableNumber date slot = false := by
      rw [← Bool.not_eq_true]
      intro hcon
      obtain ⟨b, hb, hbs⟩ :=
        (bookConflictCheck_iff s v.id r.tableNumber date slot).mp hcon
      rw [hall b hb] at hbs
      exact Bool.false_ne_true hbs
    refine ⟨?_, ?_, rfl⟩
    · simp [publicBook, hd, hs, htn, hgn, hge, hgp, hv, hact, hc]
    · simp [publicBook, hd, hs, htn, hgn, hge, hgp, hv, hact, hc, bookInsert]
  · intro b hb
    rcases hb with h | h <;> simp [blocksSlot, h]

/-- Witness for C2: in `c2store` the only stored booking for the tuple is
cancelled, so it does not block: the request succeeds and appends a new
pending booking. -/
theorem publicBook_conflict_spec_witness :
    (publicBook c2store 1 (raceReq "Ann") 0).status = 201 ∧
    (publicBook c2store 1 (raceReq "Ann") 0).store.bookings =
      c2store.bookings ++
        [mkBooking c2store.nextId raceVenue.id (raceReq "Ann") 0 raceSlot 0] ∧
    (mkBooking c2store.nextId raceVenue.id (raceReq "Ann") 0 raceSlot 0).status =
      BStatus.pending :=
  (publicBook_conflict_spec c2store 1 (raceReq "Ann") 0 raceVenue 0 raceSlot
    (by decide) (by decide) (by decide) (by decide) (by decide) (by decide)
    (by decide) (by decide)).2.1 (by decide)

/-- C1 (code bug): the check-then-insert of the public booking handler is
not atomic and the Booking schema has no unique index on the tuple, so two
concurrent identical requests can interleave as check(A), check(B),
insert(A), insert(B).  Both checks run against `raceStore` and find no
blocker (first conjunct); each insert is exactly the store effect of the
handler's success branch (second conjunct); after both inserts the store
holds TWO bookings with the same (venue, tableNumber, day bucket,
startTime, endTime) tuple and status `pending`, violating the claimed
cardinality bound of 1. -/
theorem booking_race_two_active :
    bookConflictCheck raceStore 1 "T1" 0 raceSlot = false ∧
    (publicBook raceStore 1 (raceReq "Alice") 0).store =
      bookInsert raceStore 1 (raceReq "Alice") 0 raceSlot 0 ∧
    ((bookInsert (bookInsert raceStore 1 (raceReq "Alice") 0 raceSlot 0)
        1 (raceReq "Bob") 0 raceSlot 0).bookings.countP
      (blocksSlot 1 "T1" 0 raceSlot)) = 2 := by decide

/-- C5 counterexample: booking 5 of `c5store` is already `cancelled` — a
terminal status under the claim — yet the owner's confirm operation
succeeds and moves it to `confirmed`, outside the terminal set. -/
theorem confirm_escapes_cancelled :
    c5booking.status = BStatus.cancelled ∧
    (confirmBooking c5store 1 5 none 99).status = 200 ∧
    ((confirmBooking c5store 1 5 none 99).store.findBooking 5).map
      Booking.status = some BStatus.confirmed := by decide

/-- C5 amended: the admin handlers are unguarded by the prior status — a
successful confirm sets the booking's status to `confirmed` (with
`confirmedAt` set) and a successful cancel sets it to `cancelled`, for
EVERY prior status, including `cancelled` and `completed`; no state-machine
restriction is enforced. -/
theorem confirm_cancel_unconditional (s : Store) (userId bookingId : Nat)
    (notes : Option String) (now : Nat) (b : Booking) (v : Venue)
    (hb : s.findBooking bookingId = some b)
    (hv : s.findVenue b.venue = some v) (hown : v.user = userId) :
    (confirmBooking s userId bookingId notes now).body.map Booking.status =
      some BStatus.confirmed ∧
    (confirmBooking s userId bookingId notes now).body.map
      Booking.confirmedAt = some (some now) ∧
    (cancelBooking s userId bookingId notes).body.map Booking.status =
      some BStatus.cancelled := by
    refine ⟨?_, ?_, ?_⟩ <;> simp [confirmBooking, cancelBooking, hb, hv, hown]

/-- Witness for the amended C5: applied to the cancelled booking 5 of
`c5store` — confirm yields `confirmed`, cancel yields `cancelled`. -/
theorem confirm_cancel_unconditional_witness :
    (confirmBooking c5store 1 5 none 99).body.map Booking.status =
      some BStatus.confirmed ∧
    (confirmBooking c5store 1 5 none 99).body.map Booking.confirmedAt =
      some (some 99) ∧
    (cancelBooking c5store 1 5 none).body.map Booking.status =
      some BStatus.cancelled :=
  confirm_cancel_unconditional c5store 1 5 none 99 c5booking c5venue
    (by decide) (by decide) (by decide)

/-- C7 (code bug): a plain `GET /settings` against a store holding no
Settings row persists one — `getSiteSettings` answers its `findOne` miss
with `create({})`, although the route's own comment says defaults are
returned without creating in the DB.  After the read, the store contains
a Settings document. -/
theorem settings_read_materializes_row :
    emptyStore.settings = none ∧
    (getSettingsRoute emptyStore 3).status = 200 ∧
    (getSettingsRoute emptyStore 3).store.settings =
      some (settingsDefaults 3) := by decide

/-- C8: every owner-gated handler — poll get/update/delete, poll results,
venue get/update/delete, the two per-venue booking listings, and booking
confirm/cancel/delete — checks existence before ownership: an absent
resource id yields 404, and an existing resource whose owner (for
bookings, the owner of its venue) differs from the caller yields 403,
never 404. -/
theorem ownership_after_existence (s : Store) (uid rid : Nat)
    (preq : PollUpdateReq) (vreq : VenueUpdateReq) (notes : Option String)
    (now : Nat) :
    (s.findPoll rid = none →
      (getPoll s uid rid).status = 404 ∧
      (updatePoll s uid rid preq).status = 404 ∧
      (deletePoll s uid rid).status = 404 ∧
      (getResults s uid rid).status = 404) ∧
    (∀ p, s.findPoll rid = some p → p.user ≠ uid →
      (getPoll s uid rid).status = 403 ∧
      (updatePoll s uid rid preq).status = 403 ∧
      (deletePoll s uid rid).status = 403 ∧
      (getResults s uid rid).status = 403) ∧
    (s.findVenue rid = none →
      (getVenue s uid rid).status = 404 ∧
      (updateVenue s uid rid vreq).status = 404 ∧
      (deleteVenue s uid rid).status = 404 ∧
      (venueBookings s uid rid).status = 404 ∧
      (bookingsForVenue s uid rid).status = 404) ∧
    (∀ v, s.findVenue rid = some v → v.user ≠ uid →
      (getVenue s uid rid).status = 403 ∧
      (updateVenue s uid rid vreq).status = 403 ∧
      (deleteVenue s uid rid).status = 403 ∧
      (venueBookings s uid rid).status = 403 ∧
      (bookingsForVenue s uid rid).status = 403) ∧
    (s.findBooking rid = none →
      (confirmBooking s uid rid notes now).status = 404 ∧
      (cancelBooking s uid rid notes).status = 404 ∧
      (deleteBooking s uid rid).status = 404) ∧
    (∀ b v, s.findBooking rid = some b → s.findVenue b.venue = some v →
      v.user ≠ uid →
      (confirmBooking s uid rid notes now).status = 403 ∧
      (cancelBooking s uid rid notes).status = 403 ∧
      (deleteBooking s uid rid).status = 403) := by
  refine ⟨?_, ?_, ?_, ?_, ?_, ?_⟩
  · intro h
    refine ⟨?_, ?_, ?_, ?_⟩ <;>
      simp [getPoll, updatePoll, deletePoll, getResults, h]
  · intro p h hne
    refine ⟨?_, ?_, ?_, ?_⟩ <;>
      simp [getPoll, updatePoll, deletePoll, getResults, h, hne]
  · intro h
    refine ⟨?_, ?_, ?_, ?_, ?_⟩ <;>
      simp [getVenue, updateVenue, deleteVenue, venueBookings,
        bookingsForVenue, h]
  · intro v h hne
    refine ⟨?_, ?_, ?_, ?_, ?_⟩ <;>
      simp [getVenue, updateVenue, deleteVenue, venueBookings,
        bookingsForVenue, h, hne]
  · intro h
    refine ⟨?_, ?_, ?_⟩ <;>
      simp [confirmBooking, cancelBooking, deleteBooking, h]
  · intro b v hb hv hne
    refine ⟨?_, ?_, ?_⟩ <;>
      simp [confirmBooking, cancelBooking, deleteBooking, hb, hv, hne]

/-- Witness for C8, on `c8store` with caller 2 (not the owner, user 1):
the existing poll 1, venue 2 and booking 3 answer 403; the absent ids 99
answer 404. -/
theorem ownership_after_existence_witness :
    ((getPoll c8store 2 1).status = 403 ∧
      (getResults c8store 2 1).status = 403) ∧
    (getVenue c8store 2 2).status = 403 ∧
    (confirmBooking c8store 2 3 none 0).status = 403 ∧
    (getPoll c8store 2 99).status = 404 ∧
    (getVenue c8store 2 99).status = 404 ∧
    (confirmBooking c8store 2 99 none 0).status = 404 := by
  have h1 := ownership_after_existence c8store 2 1 noopPollReq noopVenueReq
    none 0
  have h2 := ownership_after_existence c8store 2 2 noopPollReq noopVenueReq
    none 0
  have h3 := ownership_after_existence c8store 2 3 noopPollReq noopVenueReq
    none 0
  have h99 := ownership_after_existence c8store 2 99 noopPollReq noopVenueReq
    none 0
  refine ⟨⟨?_, ?_⟩, ?_, ?_, ?_, ?_, ?_⟩
  · exact (h1.2.1 c8poll (by decide) (by decide)).1
  · exact (h1.2.1 c8poll (by decide) (by decide)).2.2.2
  · exact (h2.2.2.2.1 c8venue (by decide) (by decide)).1
  · exact (h3.2.2.2.2.2 c8booking c8venue (by decide) (by decide)
      (by decide)).1
  · exact (h99.1 (by decide)).1
  · exact (h99.2.2.1 (by decide)).1
  · exact (h99.2.2.2.2.1 (by decide)).1

/-- C9: an owner's successful poll update rewrites only the targeted Poll
document — the submissions and all other collections are left exactly as
they were, and every other poll survives unchanged; hence pre-existing
submissions keep the `expireAt` they copied at creation even when the
update moves the poll's `expireAt`. -/
theorem poll_update_frame (s : Store) (uid pid : Nat) (r : PollUpdateReq)
    (h : (updatePoll s uid pid r).status = 200) :
    (updatePoll s uid pid r).store.submissions = s.submissions ∧
    (updatePoll s uid pid r).store.users = s.users ∧
    (updatePoll s uid pid r).store.venues = s.venues ∧
    (updatePoll s uid pid r).store.bookings = s.bookings ∧
    (updatePoll s uid pid r).store.settings = s.settings ∧
    ∀ p ∈ s.polls, p.id ≠ pid → p ∈ (updatePoll s uid pid r).store.polls := by
  cases hp : s.findPoll pid with
  | none => simp [updatePoll, hp] at h
  | some p0 =>
    by_cases hown : p0.user = uid
    · have hp2 : s.polls.find? (fun p => p.id == pid) = some p0 := hp
      have hid : p0.id = pid := by simpa using List.find?_some hp2
      refine ⟨?_, ?_, ?_, ?_, ?_, ?_⟩
      · simp [updatePoll, hp, hown]
      · simp [updatePoll, hp, hown]
      · simp [updatePoll, hp, hown]
      · simp [updatePoll, hp, hown]
      · simp [updatePoll, hp, hown]
      · intro p hmem hne
        simp only [updatePoll, hp, hown, ne_eq, not_true_eq_false,
          if_false] at *
        refine List.mem_map.mpr ⟨p, hmem, ?_⟩
        simp [hid, hne]
    · simp [updatePoll, hp, hown] at h

/-- Witness for C9: user 1 moves poll 1's expiry from 100 to 200 in
`c9store`; the stored submission still carries 100 while the poll now
carries 200 — the co-expiry equality no longer holds for it. -/
theorem poll_update_frame_witness :
    ((updatePoll c9store 1 1 c9req).store.submissions = c9store.submissions ∧
      (updatePoll c9store 1 1 c9req).store.users = c9store.users ∧
      (updatePoll c9store 1 1 c9req).store.venues = c9store.venues ∧
      (updatePoll c9store 1 1 c9req).store.bookings = c9store.bookings ∧
      (updatePoll c9store 1 1 c9req).store.settings = c9store.settings ∧
      ∀ p ∈ c9store.polls, p.id ≠ 1 →
        p ∈ (updatePoll c9store 1 1 c9req).store.polls) ∧
    ((updatePoll c9store 1 1 c9req).store.findPoll 1).map Poll.expireAt =
      some 200 ∧
    (updatePoll c9store 1 1 c9req).store.submissions.map Submission.expireAt =
      [100] := by
  refine ⟨poll_update_frame c9store 1 1 c9req (by decide), by decide, by decide⟩

/-- C10: for an authenticated caller whose password matches the stored
credential and whose confirmation text is exactly DELETE MY ACCOUNT, the
delete-account operation empties all six collections — every user, poll,
submission, venue, booking and the settings row, whoever owned them. -/
theorem delete_account_wipes_everything (s : Store) (uid : Nat)
    (pw txt : String) (u : User) (hu : s.findUser uid = some u)
    (hpw : pw = u.password) (htxt : txt = "DELETE MY ACCOUNT") :
    (deleteAccount s uid pw txt).status = 200 ∧
    (deleteAccount s uid pw txt).store.users = [] ∧
    (deleteAccount s uid pw txt).store.polls = [] ∧
    (deleteAccount s uid pw txt).store.submissions = [] ∧
    (deleteAccount s uid pw txt).store.venues = [] ∧
    (deleteAccount s uid pw txt).store.bookings = [] ∧
    (deleteAccount s uid pw txt).store.settings = none := by
  subst hpw
  subst htxt
  refine ⟨?_, ?_, ?_, ?_, ?_, ?_, ?_⟩ <;> simp [deleteAccount, hu]

/-- Witness for C10: in `c10store` the poll, venue, booking and submission
all belong to user 2, yet user 1's delete-account call removes them all. -/
theorem delete_account_wipes_everything_witness :
    ((deleteAccount c10store 1 "hash-one" "DELETE MY ACCOUNT").status = 200 ∧
      (deleteAccount c10store 1 "hash-one" "DELETE MY ACCOUNT").store.users = [] ∧
      (deleteAccount c10store 1 "hash-one" "DELETE MY ACCOUNT").store.polls = [] ∧
      (deleteAccount c10store 1 "hash-one" "DELETE MY ACCOUNT").store.submissions = [] ∧
      (deleteAccount c10store 1 "hash-one" "DELETE MY ACCOUNT").store.venues = [] ∧
      (deleteAccount c10store 1 "hash-one" "DELETE MY ACCOUNT").store.bookings = [] ∧
      (deleteAccount c10store 1 "hash-one" "DELETE MY ACCOUNT").store.settings = none) ∧
    c10store.polls.map Poll.user = [2] ∧
    c10store.venues.map Venue.user = [2] := by
  refine ⟨delete_account_wipes_everything c10store 1 "hash-one"
    "DELETE MY ACCOUNT" c10admin (by decide) (by decide) (by decide),
    by decide, by decide⟩

end MyEvents
